import Mathlib

/-!
Shallow embedding of the shock-annotation and quality-scoring logic of
`src/data_collection_focused.py` together with the reference catalogs of
`config/data_collection_config.py`, and proofs of the specified properties.

Numeric dataframe entries are modelled as `Option ℚ` (`none` models a
missing / NaN cell).  Column values that pandas distinguishes between
"never assigned" (NaN) and "explicitly assigned" are modelled as
`Option Bool`: `none` is a default-missing cell, `some b` a cell that some
assignment wrote.
-/

namespace EconPanel

/-- An observation row of the panel: a country code, a year, and the values
of the panel's numeric indicator columns, aligned positionally with
`Panel.numCols`; `none` models a missing (NaN) entry. -/
structure Row where
  country_code : String
  year : Int
  vals : List (Option ℚ)
deriving DecidableEq

/-- A tabular panel: the names of its numeric columns (what
`select_dtypes(include=[np.number])` returns) and its rows. -/
structure Panel where
  numCols : List String
  rows : List Row
deriving DecidableEq

/-- A shock definition, as in the `MAJOR_SHOCKS` catalog: an inclusive
`[start, end]` year window together with categorical metadata.  The field
`end_` renders the Python key `end`, which is a reserved word in Lean. -/
structure Shock where
  name : String
  start : Int
  end_ : Int
  type : String
  severity : String
  regional_focus : List String
  global_impact : Bool
deriving DecidableEq

/-- Configured start of the analysis window (`START_YEAR = 1990`). -/
def START_YEAR : Int := 1990

/-- Configured end of the analysis window (`END_YEAR = 2023`). -/
def END_YEAR : Int := 2023

/-- The `MAJOR_SHOCKS` catalog from `config/data_collection_config.py`,
in its Python dict insertion order (the free-text `description` entries are
not consulted by any computation and are omitted). -/
def MAJOR_SHOCKS : List Shock := [
  { name := "asian_financial_crisis_1997", start := 1997, end_ := 1999,
    type := "financial", severity := "high",
    regional_focus := ["THA", "MYS", "PHL", "IDN", "KOR"], global_impact := true },
  { name := "dotcom_recession_2001", start := 2001, end_ := 2002,
    type := "financial", severity := "medium",
    regional_focus := ["USA", "GBR", "DEU", "JPN"], global_impact := true },
  { name := "global_financial_crisis_2008", start := 2008, end_ := 2010,
    type := "financial", severity := "very_high",
    regional_focus := ["USA", "GBR", "ESP", "IRL", "GRC"], global_impact := true },
  { name := "european_debt_crisis_2010", start := 2010, end_ := 2013,
    type := "sovereign_debt", severity := "high",
    regional_focus := ["ESP", "ITA", "PRT", "IRL", "GRC"], global_impact := false },
  { name := "covid_pandemic_2020", start := 2020, end_ := 2022,
    type := "health_economic", severity := "very_high",
    regional_focus := [], global_impact := true }
]

/-- Does the year `y` fall in the inclusive shock window `[start, end]`?
This is the boolean mask `(df['year'] >= start) & (df['year'] <= end)`. -/
def coversB (s : Shock) (y : Int) : Bool :=
  decide (s.start ≤ y) && decide (y ≤ s.end_)

/-- A row of the annotated panel produced by `add_shock_indicators`.
`yearsSince` maps a shock name to the value of the `years_since_<name>`
column (`none` = NaN).  `is_shock_period` and `is_regional_focus` are
`Option Bool` so that a default-missing cell (`none`) is distinguished
from an explicitly assigned boolean (`some b`). -/
structure AnnRow where
  country_code : String
  year : Int
  vals : List (Option ℚ)
  is_shock_period : Option Bool
  shock_name : String
  shock_type : String
  shock_severity : String
  yearsSince : String → Option Int
  is_regional_focus : Option Bool

/-- Initialization of the annotation columns: `is_shock_period` is
explicitly assigned `False` for every row, the three label columns are
assigned the empty string, and the remaining columns do not exist yet
(default-missing). -/
def initAnnRow (r : Row) : AnnRow :=
  { country_code := r.country_code, year := r.year, vals := r.vals,
    is_shock_period := some false, shock_name := "", shock_type := "",
    shock_severity := "", yearsSince := fun _ => none, is_regional_focus := none }

/-- Step 1 of the per-shock loop body: on the shock-window mask, assign
`is_shock_period = True` and overwrite the three label columns. -/
def setLabels (a : AnnRow) (s : Shock) : AnnRow :=
  if coversB s a.year then
    { a with is_shock_period := some true, shock_name := s.name,
             shock_type := s.type, shock_severity := s.severity }
  else a

/-- Step 2 of the per-shock loop body: on the mask `year > end`, assign
`years_since_<name> = year - end`; other cells of that column keep their
previous value. -/
def setYearsSince (a : AnnRow) (s : Shock) : AnnRow :=
  if s.end_ < a.year then
    { a with yearsSince :=
        fun n => if n = s.name then some (a.year - s.end_) else a.yearsSince n }
  else a

/-- Step 3 of the per-shock loop body: when the shock has a non-empty
`regional_focus`, assign `is_regional_focus = True` on rows that are in the
shock window and whose country is in the focus list. -/
def setRegional (a : AnnRow) (s : Shock) : AnnRow :=
  if s.regional_focus ≠ [] ∧ coversB s a.year ∧ a.country_code ∈ s.regional_focus then
    { a with is_regional_focus := some true }
  else a

/-- The whole loop body of `add_shock_indicators` for one shock. -/
def applyShock (a : AnnRow) (s : Shock) : AnnRow :=
  setRegional (setYearsSince (setLabels a s) s) s

/-- Annotation of a single row: the shock catalog is traversed in order,
each shock's masked assignments applied in turn (rows are independent, so
the column-wise pandas loop is equivalent to this row-wise one). -/
def annotateRow (shocks : List Shock) (r : Row) : AnnRow :=
  shocks.foldl applyShock (initAnnRow r)

/-- Embedding of `add_shock_indicators`: annotate every row of the panel. -/
def add_shock_indicators (shocks : List Shock) (rows : List Row) : List AnnRow :=
  rows.map (annotateRow shocks)

/-- The shock that is processed last, in catalog iteration order, among the
shocks whose window contains `y` (`none` if no window contains `y`). -/
def lastShockFor (shocks : List Shock) (y : Int) : Option Shock :=
  shocks.foldl (fun acc s => if coversB s y then some s else acc) none

/-- First-occurrence-order deduplication, as `df[country_col].unique()`. -/
def uniqueFirst (l : List String) : List String :=
  l.foldl (fun acc x => if x ∈ acc then acc else acc ++ [x]) []

/-- The rows of one country group (`df[df[country_col] == country]`). -/
def countryRows (df : Panel) (c : String) : List Row :=
  df.rows.filter (fun r => r.country_code == c)

/-- Fraction of non-missing entries of the `i`-th numeric column within a
country's rows (`country_data[numeric_cols].notna().mean()`). -/
def colCompleteness (rows : List Row) (i : Nat) : ℚ :=
  ((rows.countP (fun r => (r.vals.getD i none).isSome) : Nat) : ℚ) / ((rows.length : Nat) : ℚ)

/-- Mean of the per-column completeness fractions over all numeric columns;
it stays at its initialization `0` when there is no numeric column. -/
def overallCompleteness (ncols : Nat) (rows : List Row) : ℚ :=
  if 0 < ncols then (((List.range ncols).map (colCompleteness rows)).sum) / (ncols : ℚ)
  else 0

/-- Number of shock definitions whose window contains the year of at least
one of the given rows. -/
def coveredShocks (shocks : List Shock) (rows : List Row) : Nat :=
  shocks.countP (fun s => rows.any (fun r => coversB s r.year))

/-- The hard inclusion criteria of the scorer (lines 172-176 of the
source): all three thresholds must hold. -/
def meets_criteria_fn (yc oc : ℚ) (sc : Nat) : Bool :=
  decide (yc ≥ 8/10) && decide (oc ≥ 6/10) && decide (sc ≥ 3)

/-- One row of the scorer's output table. -/
structure QualityRecord where
  country_code : String
  total_years : Nat
  year_coverage : ℚ
  overall_completeness : ℚ
  shock_coverage : Nat
  shock_coverage_rate : ℚ
  quality_score : ℚ
  meets_criteria : Bool
deriving DecidableEq

/-- The quality record of one country group, as built by the loop body of
`calculate_data_quality_score`. -/
def mkRecord (shocks : List Shock) (df : Panel) (c : String) : QualityRecord :=
  let cd := countryRows df c
  let yc : ℚ := ((cd.length : Nat) : ℚ) / (((END_YEAR - START_YEAR + 1 : Int)) : ℚ)
  let oc := overallCompleteness df.numCols.length cd
  let sc := coveredShocks shocks cd
  let scr : ℚ := ((sc : Nat) : ℚ) / ((shocks.length : Nat) : ℚ)
  { country_code := c, total_years := cd.length, year_coverage := yc,
    overall_completeness := oc, shock_coverage := sc, shock_coverage_rate := scr,
    quality_score := 3/10 * yc + 5/10 * oc + 2/10 * scr,
    meets_criteria := meets_criteria_fn yc oc sc }

/-- Descending order on quality scores, the sort key of the output table. -/
def scoreOrder (a b : QualityRecord) : Prop := b.quality_score ≤ a.quality_score

instance : DecidableRel scoreOrder := fun a b =>
  inferInstanceAs (Decidable (b.quality_score ≤ a.quality_score))

/-- Embedding of `calculate_data_quality_score`.  Failure paths are made
explicit: with an empty shock catalog and at least one country group the
first loop iteration divides `shock_coverage` by `len(MAJOR_SHOCKS) = 0`
(`ZeroDivisionError`); with no country group at all, `pd.DataFrame([])` has
no columns and `sort_values('quality_score')` raises a `KeyError`.
Otherwise the per-country records are built in first-occurrence country
order and sorted by descending quality score.  The pandas call sorts with
the numpy default quicksort; the model uses insertion sort, which realizes
the same descending order but fixes one particular order on ties. -/
def calculate_data_quality_score (shocks : List Shock) (df : Panel) :
    Except String (List QualityRecord) :=
  let countries := uniqueFirst (df.rows.map Row.country_code)
  if shocks.length = 0 ∧ countries ≠ [] then
    .error "ZeroDivisionError: division by zero"
  else if countries.isEmpty then
    .error "KeyError: quality_score"
  else
    .ok (List.insertionSort scoreOrder (countries.map (mkRecord shocks df)))

/-- The annotated panel, viewed again as a plain numeric panel: the
`years_since_<name>` columns are float columns, so
`select_dtypes(include=[np.number])` picks them up after the original
numeric columns, while the boolean and string annotation columns are not
numeric. -/
def annRowToRow (shocks : List Shock) (a : AnnRow) : Row :=
  { country_code := a.country_code, year := a.year,
    vals := a.vals ++ shocks.map (fun s => (a.yearsSince s.name).map (fun z => ((z : Int) : ℚ))) }

/-- Panel-level composition: annotate, then reread the numeric columns. -/
def annotatedPanel (shocks : List Shock) (df : Panel) : Panel :=
  { numCols := df.numCols ++ shocks.map (fun s => "years_since_" ++ s.name),
    rows := (add_shock_indicators shocks df.rows).map (annRowToRow shocks) }

/-! ### Structural lemmas about the annotator -/

@[simp] theorem setLabels_year (a : AnnRow) (s : Shock) : (setLabels a s).year = a.year := by
  unfold setLabels; split <;> rfl

@[simp] theorem setLabels_country (a : AnnRow) (s : Shock) :
    (setLabels a s).country_code = a.country_code := by
  unfold setLabels; split <;> rfl

@[simp] theorem setLabels_vals (a : AnnRow) (s : Shock) : (setLabels a s).vals = a.vals := by
  unfold setLabels; split <;> rfl

@[simp] theorem setLabels_yearsSince (a : AnnRow) (s : Shock) :
    (setLabels a s).yearsSince = a.yearsSince := by
  unfold setLabels; split <;> rfl

@[simp] theorem setLabels_regional (a : AnnRow) (s : Shock) :
    (setLabels a s).is_regional_focus = a.is_regional_focus := by
  unfold setLabels; split <;> rfl

@[simp] theorem setYearsSince_year (a : AnnRow) (s : Shock) : (setYearsSince a s).year = a.year := by
  unfold setYearsSince; split <;> rfl

@[simp] theorem setYearsSince_country (a : AnnRow) (s : Shock) :
    (setYearsSince a s).country_code = a.country_code := by
  unfold setYearsSince; split <;> rfl

@[simp] theorem setYearsSince_vals (a : AnnRow) (s : Shock) :
    (setYearsSince a s).vals = a.vals := by
  unfold setYearsSince; split <;> rfl

@[simp] theorem setYearsSince_shock_name (a : AnnRow) (s : Shock) :
    (setYearsSince a s).shock_name = a.shock_name := by
  unfold setYearsSince; split <;> rfl

@[simp] theorem setYearsSince_shock_type (a : AnnRow) (s : Shock) :
    (setYearsSince a s).shock_type = a.shock_type := by
  unfold setYearsSince; split <;> rfl

@[simp] theorem setYearsSince_shock_severity (a : AnnRow) (s : Shock) :
    (setYearsSince a s).shock_severity = a.shock_severity := by
  unfold setYearsSince; split <;> rfl

@[simp] theorem setYearsSince_period (a : AnnRow) (s : Shock) :
    (setYearsSince a s).is_shock_period = a.is_shock_period := by
  unfold setYearsSince; split <;> rfl

@[simp] theorem setYearsSince_regional (a : AnnRow) (s : Shock) :
    (setYearsSince a s).is_regional_focus = a.is_regional_focus := by
  unfold setYearsSince; split <;> rfl

@[simp] theorem setRegional_year (a : AnnRow) (s : Shock) : (setRegional a s).year = a.year := by
  unfold setRegional; split <;> rfl

@[simp] theorem setRegional_country (a : AnnRow) (s : Shock) :
    (setRegional a s).country_code = a.country_code := by
  unfold setRegional; split <;> rfl

@[simp] theorem setRegional_vals (a : AnnRow) (s : Shock) : (setRegional a s).vals = a.vals := by
  unfold setRegional; split <;> rfl

@[simp] theorem setRegional_shock_name (a : AnnRow) (s : Shock) :
    (setRegional a s).shock_name = a.shock_name := by
  unfold setRegional; split <;> rfl

@[simp] theorem setRegional_shock_type (a : AnnRow) (s : Shock) :
    (setRegional a s).shock_type = a.shock_type := by
  unfold setRegional; split <;> rfl

@[simp] theorem setRegional_shock_severity (a : AnnRow) (s : Shock) :
    (setRegional a s).shock_severity = a.shock_severity := by
  unfold setRegional; split <;> rfl

@[simp] theorem setRegional_period (a : AnnRow) (s : Shock) :
    (setRegional a s).is_shock_period = a.is_shock_period := by
  unfold setRegional; split <;> rfl

@[simp] theorem setRegional_yearsSince (a : AnnRow) (s : Shock) :
    (setRegional a s).yearsSince = a.yearsSince := by
  unfold setRegional; split <;> rfl

@[simp] theorem applyShock_year (a : AnnRow) (s : Shock) : (applyShock a s).year = a.year := by
  simp [applyShock]

@[simp] theorem applyShock_country (a : AnnRow) (s : Shock) :
    (applyShock a s).country_code = a.country_code := by
  simp [applyShock]

@[simp] theorem applyShock_vals (a : AnnRow) (s : Shock) : (applyShock a s).vals = a.vals := by
  simp [applyShock]

theorem applyShock_shock_name (a : AnnRow) (s : Shock) :
    (applyShock a s).shock_name = if coversB s a.year then s.name else a.shock_name := by
  unfold applyShock
  rw [setRegional_shock_name, setYearsSince_shock_name]
  by_cases h : coversB s a.year <;> simp [setLabels, h]

theorem applyShock_shock_type (a : AnnRow) (s : Shock) :
    (applyShock a s).shock_type = if coversB s a.year then s.type else a.shock_type := by
  unfold applyShock
  rw [setRegional_shock_type, setYearsSince_shock_type]
  by_cases h : coversB s a.year <;> simp [setLabels, h]

theorem applyShock_shock_severity (a : AnnRow) (s : Shock) :
    (applyShock a s).shock_severity = if coversB s a.year then s.severity else a.shock_severity := by
  unfold applyShock
  rw [setRegional_shock_severity, setYearsSince_shock_severity]
  by_cases h : coversB s a.year <;> simp [setLabels, h]

theorem applyShock_period (a : AnnRow) (s : Shock) :
    (applyShock a s).is_shock_period
      = if coversB s a.year then some true else a.is_shock_period := by
  unfold applyShock
  rw [setRegional_period, setYearsSince_period]
  by_cases h : coversB s a.year <;> simp [setLabels, h]

theorem applyShock_yearsSince_self (a : AnnRow) (s : Shock) :
    (applyShock a s).yearsSince s.name
      = if s.end_ < a.year then some (a.year - s.end_) else a.yearsSince s.name := by
  unfold applyShock
  rw [setRegional_yearsSince]
  unfold setYearsSince
  rw [setLabels_year]
  by_cases h : s.end_ < a.year
  · rw [if_pos h, if_pos h]; simp
  · rw [if_neg h, if_neg h, setLabels_yearsSince]

theorem applyShock_yearsSince_ne (a : AnnRow) (s : Shock) (n : String) (hn : n ≠ s.name) :
    (applyShock a s).yearsSince n = a.yearsSince n := by
  unfold applyShock
  rw [setRegional_yearsSince]
  unfold setYearsSince
  rw [setLabels_year]
  by_cases h : s.end_ < a.year
  · rw [if_pos h]; simp [hn, setLabels_yearsSince]
  · rw [if_neg h, setLabels_yearsSince]

theorem applyShock_regional_cases (a : AnnRow) (s : Shock) :
    (applyShock a s).is_regional_focus = a.is_regional_focus
      ∨ (applyShock a s).is_regional_focus = some true := by
  unfold applyShock setRegional
  split
  · right; rfl
  · left; rw [setYearsSince_regional, setLabels_regional]

theorem applyShock_period_cases (a : AnnRow) (s : Shock) :
    (applyShock a s).is_shock_period = a.is_shock_period
      ∨ (applyShock a s).is_shock_period = some true := by
  rw [applyShock_period]
  split
  · right; rfl
  · left; rfl

@[simp] theorem foldl_applyShock_year (shocks : List Shock) (a : AnnRow) :
    (shocks.foldl applyShock a).year = a.year := by
  induction shocks generalizing a with
  | nil => rfl
  | cons s rest ih => rw [List.foldl_cons, ih, applyShock_year]

@[simp] theorem foldl_applyShock_country (shocks : List Shock) (a : AnnRow) :
    (shocks.foldl applyShock a).country_code = a.country_code := by
  induction shocks generalizing a with
  | nil => rfl
  | cons s rest ih => rw [List.foldl_cons, ih, applyShock_country]

@[simp] theorem foldl_applyShock_vals (shocks : List Shock) (a : AnnRow) :
    (shocks.foldl applyShock a).vals = a.vals := by
  induction shocks generalizing a with
  | nil => rfl
  | cons s rest ih => rw [List.foldl_cons, ih, applyShock_vals]

@[simp] theorem annotateRow_year (shocks : List Shock) (r : Row) :
    (annotateRow shocks r).year = r.year := by
  unfold annotateRow; rw [foldl_applyShock_year]; rfl

@[simp] theorem annotateRow_country (shocks : List Shock) (r : Row) :
    (annotateRow shocks r).country_code = r.country_code := by
  unfold annotateRow; rw [foldl_applyShock_country]; rfl

@[simp] theorem annotateRow_vals (shocks : List Shock) (r : Row) :
    (annotateRow shocks r).vals = r.vals := by
  unfold annotateRow; rw [foldl_applyShock_vals]; rfl

/-! ### The overlap-overwrite policy of the label columns -/

theorem lastShockFor_concat (l : List Shock) (s : Shock) (y : Int) :
    lastShockFor (l ++ [s]) y = if coversB s y then some s else lastShockFor l y := by
  unfold lastShockFor
  rw [List.foldl_append]
  rfl

theorem lastShockFor_isSome (shocks : List Shock) (s : Shock) (y : Int)
    (hs : s ∈ shocks) (hc : coversB s y = true) : ∃ t, lastShockFor shocks y = some t := by
  induction shocks using List.reverseRecOn with
  | nil => cases hs
  | append_singleton l u ih =>
      rw [lastShockFor_concat]
      by_cases h : coversB u y
      · exact ⟨u, by rw [if_pos h]⟩
      · rw [if_neg h]
        rcases List.mem_append.mp hs with h' | h'
        · exact ih h'
        · have hsu : s = u := by simpa using h'
          subst hsu
          exact absurd hc (by simpa using h)

/-- The three label columns and the shock-period flag of an annotated row
are exactly those of the shock processed last among the shocks covering the
row's year; with no covering shock they keep their initialization. -/
theorem annotateRow_labels (shocks : List Shock) (r : Row) :
    (annotateRow shocks r).shock_name
        = (match lastShockFor shocks r.year with | some t => t.name | none => "")
    ∧ (annotateRow shocks r).shock_type
        = (match lastShockFor shocks r.year with | some t => t.type | none => "")
    ∧ (annotateRow shocks r).shock_severity
        = (match lastShockFor shocks r.year with | some t => t.severity | none => "")
    ∧ (annotateRow shocks r).is_shock_period
        = (match lastShockFor shocks r.year with | some _ => some true | none => some false) := by
  induction shocks using List.reverseRecOn with
  | nil => exact ⟨rfl, rfl, rfl, rfl⟩
  | append_singleton l s ih =>
      have hfold : annotateRow (l ++ [s]) r = applyShock (annotateRow l r) s := by
        unfold annotateRow
        rw [List.foldl_append]
        rfl
      have hy : (annotateRow l r).year = r.year := annotateRow_year l r
      rw [hfold, lastShockFor_concat, applyShock_shock_name, applyShock_shock_type,
        applyShock_shock_severity, applyShock_period, hy]
      by_cases h : coversB s r.year
      · rw [if_pos h, if_pos h, if_pos h, if_pos h, if_pos h]
        exact ⟨rfl, rfl, rfl, rfl⟩
      · rw [if_neg h, if_neg h, if_neg h, if_neg h, if_neg h]
        exact ih

/-! ### The `years_since_<shock>` columns -/

theorem foldl_yearsSince_notmem (l : List Shock) (a : AnnRow) (n : String)
    (h : n ∉ l.map Shock.name) : (l.foldl applyShock a).yearsSince n = a.yearsSince n := by
  induction l generalizing a with
  | nil => rfl
  | cons s rest ih =>
      rw [List.map_cons] at h
      have hne : n ≠ s.name := fun he => h (he ▸ List.mem_cons_self _ _)
      have hrest : n ∉ rest.map Shock.name := fun hm => h (List.mem_cons_of_mem _ hm)
      rw [List.foldl_cons, ih (applyShock a s) hrest, applyShock_yearsSince_ne a s n hne]

/-! ### Flag columns are only ever assigned as the source does -/

theorem foldl_regional_cases (l : List Shock) (a : AnnRow) :
    (l.foldl applyShock a).is_regional_focus = a.is_regional_focus
      ∨ (l.foldl applyShock a).is_regional_focus = some true := by
  induction l generalizing a with
  | nil => left; rfl
  | cons s rest ih =>
      rw [List.foldl_cons]
      rcases ih (applyShock a s) with h | h
      · rcases applyShock_regional_cases a s with h' | h'
        · left; rw [h, h']
        · right; rw [h, h']
      · right; exact h

theorem foldl_period_cases (l : List Shock) (a : AnnRow) :
    (l.foldl applyShock a).is_shock_period = a.is_shock_period
      ∨ (l.foldl applyShock a).is_shock_period = some true := by
  induction l generalizing a with
  | nil => left; rfl
  | cons s rest ih =>
      rw [List.foldl_cons]
      rcases ih (applyShock a s) with h | h
      · rcases applyShock_period_cases a s with h' | h'
        · left; rw [h, h']
        · right; rw [h, h']
      · right; exact h

/-! ### Structure of the scorer's output -/

theorem ok_eq_sort {shocks : List Shock} {df : Panel} {recs : List QualityRecord}
    (h : calculate_data_quality_score shocks df = Except.ok recs) :
    recs = List.insertionSort scoreOrder
      ((uniqueFirst (df.rows.map Row.country_code)).map (mkRecord shocks df)) := by
  simp only [calculate_data_quality_score] at h
  split_ifs at h
  exact (Except.ok.inj h).symm

theorem mem_ok {shocks : List Shock} {df : Panel} {recs : List QualityRecord}
    {rec : QualityRecord} (h : calculate_data_quality_score shocks df = Except.ok recs)
    (hrec : rec ∈ recs) :
    ∃ c ∈ uniqueFirst (df.rows.map Row.country_code), rec = mkRecord shocks df c := by
  rw [ok_eq_sort h, List.mem_insertionSort] at hrec
  obtain ⟨c, hc, hrec⟩ := List.mem_map.mp hrec
  exact ⟨c, hc, hrec.symm⟩

theorem mkRecord_country_code (shocks : List Shock) (df : Panel) (c : String) :
    (mkRecord shocks df c).country_code = c := rfl

theorem mkRecord_total_years (shocks : List Shock) (df : Panel) (c : String) :
    (mkRecord shocks df c).total_years = (countryRows df c).length := rfl

theorem mkRecord_year_coverage (shocks : List Shock) (df : Panel) (c : String) :
    (mkRecord shocks df c).year_coverage
      = (((countryRows df c).length : ℚ) / (((END_YEAR - START_YEAR + 1 : Int)) : ℚ)) := rfl

theorem mkRecord_overall_completeness (shocks : List Shock) (df : Panel) (c : String) :
    (mkRecord shocks df c).overall_completeness
      = overallCompleteness df.numCols.length (countryRows df c) := rfl

theorem mkRecord_shock_coverage (shocks : List Shock) (df : Panel) (c : String) :
    (mkRecord shocks df c).shock_coverage = coveredShocks shocks (countryRows df c) := rfl

theorem mkRecord_shock_coverage_rate (shocks : List Shock) (df : Panel) (c : String) :
    (mkRecord shocks df c).shock_coverage_rate
      = (((mkRecord shocks df c).shock_coverage : Nat) : ℚ) / ((shocks.length : Nat) : ℚ) := rfl

theorem mkRecord_quality_score (shocks : List Shock) (df : Panel) (c : String) :
    (mkRecord shocks df c).quality_score
      = 3/10 * (mkRecord shocks df c).year_coverage
        + 5/10 * (mkRecord shocks df c).overall_completeness
        + 2/10 * (mkRecord shocks df c).shock_coverage_rate := rfl

theorem mkRecord_meets_criteria (shocks : List Shock) (df : Panel) (c : String) :
    (mkRecord shocks df c).meets_criteria
      = meets_criteria_fn (mkRecord shocks df c).year_coverage
          (mkRecord shocks df c).overall_completeness
          (mkRecord shocks df c).shock_coverage := rfl

theorem meets_criteria_fn_iff (yc oc : ℚ) (sc : Nat) :
    meets_criteria_fn yc oc sc = true ↔ (8/10 ≤ yc ∧ 6/10 ≤ oc ∧ 3 ≤ sc) := by
  simp [meets_criteria_fn, ge_iff_le, and_assoc]

theorem uniqueFirst_go_ne_nil (l : List String) (acc : List String) (h : acc ≠ []) :
    l.foldl (fun acc x => if x ∈ acc then acc else acc ++ [x]) acc ≠ [] := by
  induction l generalizing acc with
  | nil => exact h
  | cons a t ih =>
      rw [List.foldl_cons]
      by_cases hm : a ∈ acc
      · rw [if_pos hm]; exact ih acc h
      · rw [if_neg hm]
        exact ih (acc ++ [a]) (by simp)

theorem uniqueFirst_ne_nil (l : List String) (h : l ≠ []) : uniqueFirst l ≠ [] := by
  cases l with
  | nil => exact absurd rfl h
  | cons a t =>
      unfold uniqueFirst
      rw [List.foldl_cons]
      have : (if a ∈ ([] : List String) then ([] : List String) else [] ++ [a]) = [a] := by simp
      rw [this]
      exact uniqueFirst_go_ne_nil t [a] (by simp)

theorem any_year_eq (p : Int → Bool) (rows₁ rows₂ : List Row)
    (h : rows₁.map Row.year = rows₂.map Row.year) :
    rows₁.any (fun r => p r.year) = rows₂.any (fun r => p r.year) := by
  have key : ∀ rows : List Row, rows.any (fun r => p r.year) = (rows.map Row.year).any p := by
    intro rows
    induction rows with
    | nil => rfl
    | cons a t ih => simp [ih]
  rw [key, key, h]

/-- Shock coverage is a function of the years present in the rows alone:
rows with the same year column have the same shock coverage. -/
theorem coveredShocks_eq_of_years (shocks : List Shock) (rows₁ rows₂ : List Row)
    (h : rows₁.map Row.year = rows₂.map Row.year) :
    coveredShocks shocks rows₁ = coveredShocks shocks rows₂ := by
  unfold coveredShocks
  congr 1
  funext s
  exact any_year_eq (fun y => coversB s y) rows₁ rows₂ h

/-! ### Rescoring the annotated panel -/

theorem annRowToRow_country (shocks : List Shock) (a : AnnRow) :
    (annRowToRow shocks a).country_code = a.country_code := rfl

theorem annRowToRow_year (shocks : List Shock) (a : AnnRow) :
    (annRowToRow shocks a).year = a.year := rfl

theorem annotatedPanel_rows (shocks : List Shock) (df : Panel) :
    (annotatedPanel shocks df).rows
      = df.rows.map (fun r => annRowToRow shocks (annotateRow shocks r)) := by
  unfold annotatedPanel add_shock_indicators
  rw [List.map_map]
  rfl

theorem map_eq_of_eq {β : Type} (f g : Row → β) (h : ∀ r, f r = g r) (l : List Row) :
    l.map f = l.map g := by
  induction l with
  | nil => rfl
  | cons a t ih => simp [h a, ih]

theorem filter_cc_map (g : Row → Row) (hg : ∀ r, (g r).country_code = r.country_code)
    (l : List Row) (c : String) :
    (l.map g).filter (fun r => r.country_code == c)
      = (l.filter (fun r => r.country_code == c)).map g := by
  induction l with
  | nil => rfl
  | cons a t ih =>
      simp only [List.map_cons, List.filter_cons, hg]
      split
      · rw [List.map_cons, ih]
      · exact ih

theorem countryRows_annotatedPanel (shocks : List Shock) (df : Panel) (c : String) :
    countryRows (annotatedPanel shocks df) c
      = (countryRows df c).map (fun r => annRowToRow shocks (annotateRow shocks r)) := by
  unfold countryRows
  rw [annotatedPanel_rows]
  exact filter_cc_map _ (fun r => by rw [annRowToRow_country, annotateRow_country]) _ c

theorem countries_annotatedPanel (shocks : List Shock) (df : Panel) :
    uniqueFirst ((annotatedPanel shocks df).rows.map Row.country_code)
      = uniqueFirst (df.rows.map Row.country_code) := by
  rw [annotatedPanel_rows, List.map_map]
  congr 1
  exact map_eq_of_eq _ _ (fun r => by
    simp only [Function.comp_apply]
    rw [annRowToRow_country, annotateRow_country]) _

theorem years_annotatedPanel (shocks : List Shock) (df : Panel) (c : String) :
    (countryRows (annotatedPanel shocks df) c).map Row.year
      = (countryRows df c).map Row.year := by
  rw [countryRows_annotatedPanel, List.map_map]
  exact map_eq_of_eq _ _ (fun r => by
    simp only [Function.comp_apply]
    rw [annRowToRow_year, annotateRow_year]) _

/-! ### Concrete sample data used to instantiate the theorems -/

/-- A one-row sample panel: country "AAA", year 1998, one fully populated
numeric indicator column. -/
def samplePanel : Panel := ⟨["gdp_per_capita"], [⟨"AAA", 1998, [some 1]⟩]⟩

theorem samplePanel_score :
    calculate_data_quality_score MAJOR_SHOCKS samplePanel
      = Except.ok [mkRecord MAJOR_SHOCKS samplePanel "AAA"] := rfl

theorem samplePanel_year_coverage :
    (mkRecord MAJOR_SHOCKS samplePanel "AAA").year_coverage = 1/34 := by
  norm_num [mkRecord, countryRows, samplePanel, overallCompleteness, colCompleteness,
    coveredShocks, MAJOR_SHOCKS, coversB, START_YEAR, END_YEAR, List.range_succ]

theorem samplePanel_overall_completeness :
    (mkRecord MAJOR_SHOCKS samplePanel "AAA").overall_completeness = 1 := by
  norm_num [mkRecord, countryRows, samplePanel, overallCompleteness, colCompleteness,
    coveredShocks, MAJOR_SHOCKS, coversB, List.range_succ]

theorem samplePanel_shock_coverage_rate :
    (mkRecord MAJOR_SHOCKS samplePanel "AAA").shock_coverage_rate = 1/5 := by
  norm_num [mkRecord, countryRows, samplePanel, overallCompleteness, colCompleteness,
    coveredShocks, MAJOR_SHOCKS, coversB, List.range_succ]

/-! ### The claims -/

/-- C1: for every country group scored by the quality scorer, quality_score
equals 0.3 * year_coverage + 0.5 * overall_completeness +
0.2 * shock_coverage_rate, and whenever each of those three inputs lies in
[0,1] the resulting quality_score also lies in [0,1]. -/
theorem C1_quality_score_formula (shocks : List Shock) (df : Panel)
    (recs : List QualityRecord) (rec : QualityRecord)
    (h : calculate_data_quality_score shocks df = Except.ok recs) (hrec : rec ∈ recs) :
    rec.quality_score = 3/10 * rec.year_coverage + 5/10 * rec.overall_completeness
        + 2/10 * rec.shock_coverage_rate
    ∧ (0 ≤ rec.year_coverage → rec.year_coverage ≤ 1 →
       0 ≤ rec.overall_completeness → rec.overall_completeness ≤ 1 →
       0 ≤ rec.shock_coverage_rate → rec.shock_coverage_rate ≤ 1 →
       0 ≤ rec.quality_score ∧ rec.quality_score ≤ 1) := by
  obtain ⟨c, -, rfl⟩ := mem_ok h hrec
  refine ⟨mkRecord_quality_score shocks df c, ?_⟩
  intro h1 h2 h3 h4 h5 h6
  rw [mkRecord_quality_score]
  constructor <;> linarith

/-- C1 witness: the sample panel's single record has its components in
[0,1], so its quality score lies in [0,1]. -/
theorem C1_witness :
    0 ≤ (mkRecord MAJOR_SHOCKS samplePanel "AAA").quality_score
    ∧ (mkRecord MAJOR_SHOCKS samplePanel "AAA").quality_score ≤ 1 :=
  (C1_quality_score_formula MAJOR_SHOCKS samplePanel
      [mkRecord MAJOR_SHOCKS samplePanel "AAA"] (mkRecord MAJOR_SHOCKS samplePanel "AAA")
      samplePanel_score (List.mem_singleton.mpr rfl)).2
    (by norm_num [samplePanel_year_coverage])
    (by norm_num [samplePanel_year_coverage])
    (by norm_num [samplePanel_overall_completeness])
    (by norm_num [samplePanel_overall_completeness])
    (by norm_num [samplePanel_shock_coverage_rate])
    (by norm_num [samplePanel_shock_coverage_rate])

/-- C2: for two shocks of the catalog whose windows both contain a row's
year, the row's label columns after annotation are those of the shock that
is processed last in catalog iteration order among the covering shocks
(the earlier label is overwritten, not combined), and the row is flagged
as a shock period. -/
theorem C2_overlap_last_wins (shocks : List Shock) (r : Row) (i j : Nat)
    (s₁ s₂ : Shock) (h₁ : shocks[i]? = some s₁) (h₂ : shocks[j]? = some s₂)
    (hij : i < j) (hc₁ : coversB s₁ r.year = true) (hc₂ : coversB s₂ r.year = true) :
    ∃ t, lastShockFor shocks r.year = some t
      ∧ (annotateRow shocks r).shock_name = t.name
      ∧ (annotateRow shocks r).shock_type = t.type
      ∧ (annotateRow shocks r).shock_severity = t.severity
      ∧ (annotateRow shocks r).is_shock_period = some true := by
  have hs₂ : s₂ ∈ shocks := List.getElem?_mem h₂
  obtain ⟨t, ht⟩ := lastShockFor_isSome shocks s₂ r.year hs₂ hc₂
  have hl := annotateRow_labels shocks r
  rw [ht] at hl
  exact ⟨t, ht, hl.1, hl.2.1, hl.2.2.1, hl.2.2.2⟩

/-- C2 witness: the 2008 global financial crisis (index 2, window
2008-2010) and the European debt crisis (index 3, window 2010-2013) both
cover 2010; rows of year 2010 carry the labels of the shock processed
last. -/
theorem C2_witness :
    ∃ t, lastShockFor MAJOR_SHOCKS 2010 = some t
      ∧ (annotateRow MAJOR_SHOCKS ⟨"USA", 2010, []⟩).shock_name = t.name
      ∧ (annotateRow MAJOR_SHOCKS ⟨"USA", 2010, []⟩).shock_type = t.type
      ∧ (annotateRow MAJOR_SHOCKS ⟨"USA", 2010, []⟩).shock_severity = t.severity
      ∧ (annotateRow MAJOR_SHOCKS ⟨"USA", 2010, []⟩).is_shock_period = some true :=
  C2_overlap_last_wins MAJOR_SHOCKS ⟨"USA", 2010, []⟩ 2 3
    { name := "global_financial_crisis_2008", start := 2008, end_ := 2010,
      type := "financial", severity := "very_high",
      regional_focus := ["USA", "GBR", "ESP", "IRL", "GRC"], global_impact := true }
    { name := "european_debt_crisis_2010", start := 2010, end_ := 2013,
      type := "sovereign_debt", severity := "high",
      regional_focus := ["ESP", "ITA", "PRT", "IRL", "GRC"], global_impact := false }
    (by decide) (by decide) (by decide) (by decide) (by decide)

/-- C3: for every scored country group, meets_criteria holds exactly when
year_coverage >= 0.8, overall_completeness >= 0.6 and shock_coverage >= 3;
in particular the criteria formula applied to year_coverage 0.9,
completeness 0.5, shock_coverage 4 yields false. -/
theorem C3_meets_criteria (shocks : List Shock) (df : Panel)
    (recs : List QualityRecord) (rec : QualityRecord)
    (h : calculate_data_quality_score shocks df = Except.ok recs) (hrec : rec ∈ recs) :
    (rec.meets_criteria = true ↔
        8/10 ≤ rec.year_coverage ∧ 6/10 ≤ rec.overall_completeness ∧ 3 ≤ rec.shock_coverage)
    ∧ meets_criteria_fn (9/10) (1/2) 4 = false := by
  obtain ⟨c, -, rfl⟩ := mem_ok h hrec
  constructor
  · rw [mkRecord_meets_criteria, meets_criteria_fn_iff]
  · apply Bool.eq_false_iff.mpr
    rw [Ne, meets_criteria_fn_iff]
    rintro ⟨-, hcon, -⟩
    norm_num at hcon

/-- C3 witness: instantiation on the sample panel's record. -/
theorem C3_witness :
    ((mkRecord MAJOR_SHOCKS samplePanel "AAA").meets_criteria = true ↔
        8/10 ≤ (mkRecord MAJOR_SHOCKS samplePanel "AAA").year_coverage
        ∧ 6/10 ≤ (mkRecord MAJOR_SHOCKS samplePanel "AAA").overall_completeness
        ∧ 3 ≤ (mkRecord MAJOR_SHOCKS samplePanel "AAA").shock_coverage)
    ∧ meets_criteria_fn (9/10) (1/2) 4 = false :=
  C3_meets_criteria MAJOR_SHOCKS samplePanel
    [mkRecord MAJOR_SHOCKS samplePanel "AAA"] (mkRecord MAJOR_SHOCKS samplePanel "AAA")
    samplePanel_score (List.mem_singleton.mpr rfl)

/-- C4: for every scored country group, overall_completeness is the mean,
over the panel's numeric columns, of the fraction of non-missing values
within that country's rows, and it is 0 when the panel has no numeric
column. -/
theorem C4_overall_completeness (shocks : List Shock) (df : Panel)
    (recs : List QualityRecord) (rec : QualityRecord)
    (h : calculate_data_quality_score shocks df = Except.ok recs) (hrec : rec ∈ recs) :
    rec.overall_completeness =
      (if 0 < df.numCols.length then
        (((List.range df.numCols.length).map (fun i =>
          (((countryRows df rec.country_code).countP
              (fun r => (r.vals.getD i none).isSome) : Nat) : ℚ)
            / (((countryRows df rec.country_code).length : Nat) : ℚ))).sum)
          / (df.numCols.length : ℚ)
       else 0)
    ∧ (df.numCols = [] → rec.overall_completeness = 0) := by
  obtain ⟨c, -, rfl⟩ := mem_ok h hrec
  constructor
  · rfl
  · intro hnil
    rw [mkRecord_overall_completeness, hnil]
    simp [overallCompleteness]

/-- C4 witness: instantiation on the sample panel's record. -/
theorem C4_witness :
    (mkRecord MAJOR_SHOCKS samplePanel "AAA").overall_completeness =
      (if 0 < samplePanel.numCols.length then
        (((List.range samplePanel.numCols.length).map (fun i =>
          (((countryRows samplePanel (mkRecord MAJOR_SHOCKS samplePanel "AAA").country_code).countP
              (fun r => (r.vals.getD i none).isSome) : Nat) : ℚ)
            / (((countryRows samplePanel
                  (mkRecord MAJOR_SHOCKS samplePanel "AAA").country_code).length : Nat) : ℚ))).sum)
          / (samplePanel.numCols.length : ℚ)
       else 0)
    ∧ (samplePanel.numCols = [] →
        (mkRecord MAJOR_SHOCKS samplePanel "AAA").overall_completeness = 0) :=
  C4_overall_completeness MAJOR_SHOCKS samplePanel
    [mkRecord MAJOR_SHOCKS samplePanel "AAA"] (mkRecord MAJOR_SHOCKS samplePanel "AAA")
    samplePanel_score (List.mem_singleton.mpr rfl)

/-- C5: the annotator sets years_since_<shock_name> to year - end exactly
when year > end, leaves it missing (not zero) when year <= end, and the
value grows by exactly 1 per successive year after the shock's end. -/
theorem C5_years_since (shocks : List Shock) (s : Shock) (r r' : Row)
    (hnd : (shocks.map Shock.name).Nodup) (hs : s ∈ shocks)
    (hnext : r'.year = r.year + 1) :
    ((annotateRow shocks r).yearsSince s.name
        = if s.end_ < r.year then some (r.year - s.end_) else none)
    ∧ (s.end_ < r.year →
        (annotateRow shocks r').yearsSince s.name = some ((r.year - s.end_) + 1)) := by
  obtain ⟨l₁, l₂, rfl⟩ := List.append_of_mem hs
  rw [List.map_append, List.map_cons, List.nodup_append] at hnd
  obtain ⟨-, hnd₂, hdisj⟩ := hnd
  have h₂ : s.name ∉ l₂.map Shock.name := (List.nodup_cons.mp hnd₂).1
  have h₁ : s.name ∉ l₁.map Shock.name := fun hm =>
    hdisj hm (List.mem_cons_self _ _)
  have key : ∀ rr : Row, (annotateRow (l₁ ++ s :: l₂) rr).yearsSince s.name
      = if s.end_ < rr.year then some (rr.year - s.end_) else none := by
    intro rr
    unfold annotateRow
    rw [List.foldl_append, List.foldl_cons,
      foldl_yearsSince_notmem l₂ _ _ h₂, applyShock_yearsSince_self]
    have hy : (List.foldl applyShock (initAnnRow rr) l₁).year = rr.year := by
      rw [foldl_applyShock_year]; rfl
    rw [hy, foldl_yearsSince_notmem l₁ _ _ h₁]
    rfl
  refine ⟨key r, fun hlt => ?_⟩
  rw [key r', hnext, if_pos (by omega)]
  congr 1
  omega

/-- C5 witness: the Asian crisis (end 1999) on rows of years 2005 and
2006. -/
theorem C5_witness :
    ((annotateRow MAJOR_SHOCKS ⟨"USA", 2005, []⟩).yearsSince "asian_financial_crisis_1997"
        = if (1999 : Int) < 2005 then some ((2005 : Int) - 1999) else none)
    ∧ ((1999 : Int) < 2005 →
        (annotateRow MAJOR_SHOCKS ⟨"USA", 2006, []⟩).yearsSince "asian_financial_crisis_1997"
          = some (((2005 : Int) - 1999) + 1)) :=
  C5_years_since MAJOR_SHOCKS
    { name := "asian_financial_crisis_1997", start := 1997, end_ := 1999,
      type := "financial", severity := "high",
      regional_focus := ["THA", "MYS", "PHL", "IDN", "KOR"], global_impact := true }
    ⟨"USA", 2005, []⟩ ⟨"USA", 2006, []⟩ (by decide) (by decide) (by decide)

/-- C6: for every scored country group, shock_coverage counts the shock
definitions whose inclusive window contains the year of at least one of
the country's rows, shock_coverage_rate is shock_coverage over the number
of shock definitions, and the count depends on the rows' years only (so it
is unaffected by any relabelling that preserves the year column). -/
theorem C6_shock_coverage (shocks : List Shock) (df : Panel)
    (recs : List QualityRecord) (rec : QualityRecord)
    (h : calculate_data_quality_score shocks df = Except.ok recs) (hrec : rec ∈ recs) :
    rec.shock_coverage
        = shocks.countP (fun s =>
            (countryRows df rec.country_code).any (fun r => coversB s r.year))
    ∧ rec.shock_coverage_rate
        = ((rec.shock_coverage : Nat) : ℚ) / ((shocks.length : Nat) : ℚ)
    ∧ (∀ rows₁ rows₂ : List Row, rows₁.map Row.year = rows₂.map Row.year →
        coveredShocks shocks rows₁ = coveredShocks shocks rows₂) := by
  obtain ⟨c, -, rfl⟩ := mem_ok h hrec
  exact ⟨rfl, rfl, fun rows₁ rows₂ hy => coveredShocks_eq_of_years shocks rows₁ rows₂ hy⟩

/-- C6 witness: instantiation on the sample panel's record, with the
year-dependence fact applied to two row lists sharing the year column. -/
theorem C6_witness :
    (mkRecord MAJOR_SHOCKS samplePanel "AAA").shock_coverage
        = MAJOR_SHOCKS.countP (fun s =>
            (countryRows samplePanel
              (mkRecord MAJOR_SHOCKS samplePanel "AAA").country_code).any
              (fun r => coversB s r.year))
    ∧ (mkRecord MAJOR_SHOCKS samplePanel "AAA").shock_coverage_rate
        = (((mkRecord MAJOR_SHOCKS samplePanel "AAA").shock_coverage : Nat) : ℚ)
            / ((MAJOR_SHOCKS.length : Nat) : ℚ)
    ∧ coveredShocks MAJOR_SHOCKS [⟨"BBB", 1998, []⟩]
        = coveredShocks MAJOR_SHOCKS [⟨"CCC", 1998, [some 2]⟩] := by
  obtain ⟨h1, h2, h3⟩ := C6_shock_coverage MAJOR_SHOCKS samplePanel
    [mkRecord MAJOR_SHOCKS samplePanel "AAA"] (mkRecord MAJOR_SHOCKS samplePanel "AAA")
    samplePanel_score (List.mem_singleton.mpr rfl)
  exact ⟨h1, h2, h3 [⟨"BBB", 1998, []⟩] [⟨"CCC", 1998, [some 2]⟩] rfl⟩

/-- C7 counterexample: scoring an empty panel fails (the metrics list is
empty, so the sort key is missing: KeyError), and scoring a non-empty
panel against an empty shock catalog fails (division by the zero shock
count), contradicting the claim that these degenerate inputs complete with
trivial outputs. -/
theorem C7_counterexample :
    calculate_data_quality_score MAJOR_SHOCKS (Panel.mk ["gdp_per_capita"] [])
        = Except.error "KeyError: quality_score"
    ∧ calculate_data_quality_score [] samplePanel
        = Except.error "ZeroDivisionError: division by zero" :=
  ⟨rfl, rfl⟩

/-- C7 amended: of the three degenerate inputs, only the zero-numeric-
column panel is handled without failing (every record then carries
overall_completeness 0); an empty panel fails with a KeyError at the sort
and a zero-shock catalog with a non-empty panel fails with a
ZeroDivisionError. -/
theorem C7_amended_degenerate :
    (∀ (shocks : List Shock) (df : Panel), df.rows = [] →
        calculate_data_quality_score shocks df = Except.error "KeyError: quality_score")
    ∧ (∀ (shocks : List Shock) (df : Panel), shocks = [] → df.rows ≠ [] →
        calculate_data_quality_score shocks df
          = Except.error "ZeroDivisionError: division by zero")
    ∧ (∀ (shocks : List Shock) (df : Panel), df.numCols = [] → shocks ≠ [] → df.rows ≠ [] →
        ∃ recs, calculate_data_quality_score shocks df = Except.ok recs
          ∧ recs ≠ [] ∧ ∀ rec ∈ recs, rec.overall_completeness = 0) := by
  refine ⟨?_, ?_, ?_⟩
  · intro shocks df hrows
    simp [calculate_data_quality_score, hrows, uniqueFirst]
  · intro shocks df hsh hrows
    subst hsh
    have hc : uniqueFirst (df.rows.map Row.country_code) ≠ [] :=
      uniqueFirst_ne_nil _ (by simpa using hrows)
    simp only [calculate_data_quality_score]
    rw [if_pos ⟨rfl, hc⟩]
  · intro shocks df hcols hsh hrows
    have hc : uniqueFirst (df.rows.map Row.country_code) ≠ [] :=
      uniqueFirst_ne_nil _ (by simpa using hrows)
    have hlen : shocks.length ≠ 0 := by simpa using hsh
    refine ⟨List.insertionSort scoreOrder
        ((uniqueFirst (df.rows.map Row.country_code)).map (mkRecord shocks df)), ?_, ?_, ?_⟩
    · simp only [calculate_data_quality_score]
      split_ifs with hx hy
      · exact absurd hx.1 hlen
      · exact absurd (by simpa using hy) hc
      · rfl
    · intro hnil
      have hlen0 := congrArg List.length hnil
      rw [List.length_insertionSort, List.length_map] at hlen0
      exact hc (List.length_eq_zero.mp hlen0)
    · intro rec hrec
      rw [List.mem_insertionSort] at hrec
      obtain ⟨c, -, rfl⟩ := List.mem_map.mp hrec
      rw [mkRecord_overall_completeness, hcols]
      simp [overallCompleteness]

/-- C7 witness: the three amended facts at concrete inputs. -/
theorem C7_witness :
    calculate_data_quality_score MAJOR_SHOCKS (Panel.mk [] [])
        = Except.error "KeyError: quality_score"
    ∧ calculate_data_quality_score [] (Panel.mk [] [⟨"BBB", 2000, []⟩])
        = Except.error "ZeroDivisionError: division by zero"
    ∧ ∃ recs, calculate_data_quality_score MAJOR_SHOCKS (Panel.mk [] [⟨"BBB", 2000, []⟩])
        = Except.ok recs ∧ recs ≠ [] ∧ ∀ rec ∈ recs, rec.overall_completeness = 0 :=
  ⟨C7_amended_degenerate.1 MAJOR_SHOCKS (Panel.mk [] []) rfl,
   C7_amended_degenerate.2.1 [] (Panel.mk [] [⟨"BBB", 2000, []⟩]) rfl (by simp),
   C7_amended_degenerate.2.2 MAJOR_SHOCKS (Panel.mk [] [⟨"BBB", 2000, []⟩]) rfl
     (by decide) (by simp)⟩

/-- C9 counterexample: the row (USA, 1991) lies outside every catalog
window, yet after annotation its is_shock_period cell holds an explicitly
assigned false (`some false`: the annotator assigns False to the whole
column before the shock loop), not a default-missing value; so the claim
that no operation assigns an explicit false to either flag fails for
is_shock_period.  The is_regional_focus cell, by contrast, is indeed left
default-missing. -/
theorem C9_counterexample :
    (annotateRow MAJOR_SHOCKS ⟨"USA", 1991, []⟩).is_shock_period = some false
    ∧ (annotateRow MAJOR_SHOCKS ⟨"USA", 1991, []⟩).is_regional_focus = none := by
  constructor <;> rfl

/-- C9 amended: is_regional_focus is never explicitly assigned false (its
cells are default-missing or explicitly true), while is_shock_period is
explicitly initialized to false for every row and afterwards only ever
overwritten with true. -/
theorem C9_amended_flags (shocks : List Shock) (r : Row) :
    ((annotateRow shocks r).is_regional_focus = none
      ∨ (annotateRow shocks r).is_regional_focus = some true)
    ∧ ((annotateRow shocks r).is_shock_period = some false
      ∨ (annotateRow shocks r).is_shock_period = some true) := by
  unfold annotateRow
  constructor
  · rcases foldl_regional_cases shocks (initAnnRow r) with h | h
    · left; rw [h]; rfl
    · right; exact h
  · rcases foldl_period_cases shocks (initAnnRow r) with h | h
    · left; rw [h]; rfl
    · right; exact h

/-- The annotated sample panel written out: the five years_since columns
are appended as numeric columns and every one of their cells is missing,
the sample year 1998 being at most every catalog shock's end year. -/
def annSamplePanel : Panel :=
  ⟨["gdp_per_capita", "years_since_asian_financial_crisis_1997",
    "years_since_dotcom_recession_2001", "years_since_global_financial_crisis_2008",
    "years_since_european_debt_crisis_2010", "years_since_covid_pandemic_2020"],
   [⟨"AAA", 1998, [some 1, none, none, none, none, none]⟩]⟩

/-- C10 counterexample: rescoring the annotated sample panel does not
reproduce the raw panel's scores: the annotator's sparse years_since
columns are numeric, so overall_completeness drops from 1 to 1/6. -/
theorem C10_counterexample :
    calculate_data_quality_score MAJOR_SHOCKS samplePanel
        = Except.ok [mkRecord MAJOR_SHOCKS samplePanel "AAA"]
    ∧ calculate_data_quality_score MAJOR_SHOCKS (annotatedPanel MAJOR_SHOCKS samplePanel)
        = Except.ok [mkRecord MAJOR_SHOCKS (annotatedPanel MAJOR_SHOCKS samplePanel) "AAA"]
    ∧ (mkRecord MAJOR_SHOCKS samplePanel "AAA").overall_completeness = 1
    ∧ (mkRecord MAJOR_SHOCKS (annotatedPanel MAJOR_SHOCKS samplePanel) "AAA").overall_completeness
        = 1/6
    ∧ (1/6 : ℚ) ≠ 1 := by
  refine ⟨samplePanel_score, rfl, samplePanel_overall_completeness, ?_, by norm_num⟩
  have h : annotatedPanel MAJOR_SHOCKS samplePanel = annSamplePanel := rfl
  rw [h]
  norm_num [mkRecord, countryRows, annSamplePanel, overallCompleteness, colCompleteness,
    coveredShocks, MAJOR_SHOCKS, coversB, List.range_succ]

/-- C10 amended: rescoring the annotated panel preserves, per country, the
row count, year coverage, shock coverage and shock coverage rate (they
depend only on the country and year columns, which annotation preserves);
overall_completeness and hence quality_score are not preserved in general
(see the counterexample). -/
theorem C10_amended_commute (shocks : List Shock) (df : Panel)
    (recs recs' : List QualityRecord) (rec : QualityRecord)
    (h : calculate_data_quality_score shocks (annotatedPanel shocks df) = Except.ok recs)
    (h' : calculate_data_quality_score shocks df = Except.ok recs')
    (hrec : rec ∈ recs) :
    ∃ rec' ∈ recs', rec'.country_code = rec.country_code
      ∧ rec'.total_years = rec.total_years
      ∧ rec'.year_coverage = rec.year_coverage
      ∧ rec'.shock_coverage = rec.shock_coverage
      ∧ rec'.shock_coverage_rate = rec.shock_coverage_rate := by
  obtain ⟨c, hc, rfl⟩ := mem_ok h hrec
  rw [countries_annotatedPanel] at hc
  have hlen : (countryRows (annotatedPanel shocks df) c).length
      = (countryRows df c).length := by
    rw [countryRows_annotatedPanel, List.length_map]
  have hcov : coveredShocks shocks (countryRows (annotatedPanel shocks df) c)
      = coveredShocks shocks (countryRows df c) :=
    coveredShocks_eq_of_years _ _ _ (years_annotatedPanel shocks df c)
  refine ⟨mkRecord shocks df c, ?_, rfl, ?_, ?_, ?_, ?_⟩
  · rw [ok_eq_sort h', List.mem_insertionSort]
    exact List.mem_map_of_mem _ hc
  · rw [mkRecord_total_years, mkRecord_total_years, hlen]
  · rw [mkRecord_year_coverage, mkRecord_year_coverage, hlen]
  · rw [mkRecord_shock_coverage, mkRecord_shock_coverage, hcov]
  · rw [mkRecord_shock_coverage_rate, mkRecord_shock_coverage_rate,
      mkRecord_shock_coverage, mkRecord_shock_coverage, hcov]

/-- C10 witness: the commuting fields at the sample panel. -/
theorem C10_witness :
    ∃ rec' ∈ [mkRecord MAJOR_SHOCKS samplePanel "AAA"],
      rec'.country_code
          = (mkRecord MAJOR_SHOCKS (annotatedPanel MAJOR_SHOCKS samplePanel) "AAA").country_code
      ∧ rec'.total_years
          = (mkRecord MAJOR_SHOCKS (annotatedPanel MAJOR_SHOCKS samplePanel) "AAA").total_years
      ∧ rec'.year_coverage
          = (mkRecord MAJOR_SHOCKS (annotatedPanel MAJOR_SHOCKS samplePanel) "AAA").year_coverage
      ∧ rec'.shock_coverage
          = (mkRecord MAJOR_SHOCKS (annotatedPanel MAJOR_SHOCKS samplePanel) "AAA").shock_coverage
      ∧ rec'.shock_coverage_rate
          = (mkRecord MAJOR_SHOCKS
              (annotatedPanel MAJOR_SHOCKS samplePanel) "AAA").shock_coverage_rate :=
  C10_amended_commute MAJOR_SHOCKS samplePanel
    [mkRecord MAJOR_SHOCKS (annotatedPanel MAJOR_SHOCKS samplePanel) "AAA"]
    [mkRecord MAJOR_SHOCKS samplePanel "AAA"]
    (mkRecord MAJOR_SHOCKS (annotatedPanel MAJOR_SHOCKS samplePanel) "AAA")
    rfl samplePanel_score (List.mem_singleton.mpr rfl)

end EconPanel
